import Mathlib

/-!
Shallow embedding of `src/tachfile.py`.

The source is a thin pandas wrapper with two functions:
`filter_data_by_device` (load a table, partition its rows by the values of a
device column, write one file per device, return a stats dict) and
`get_device_summary` (load a table, group by the device column, aggregate).

Modelling conventions, matching the source line by line:
- A pandas DataFrame is a `Table`: a column-name list plus a list of rows,
  each row an association list from column name to scalar `Value`.  A table is
  taken as already loaded (the `pd.read_*` call succeeded); cell values are
  modelled as well-behaved scalars with ordinary decidable equality.
- File writes, directory creation and the caught exception are modelled as an
  explicit effect record `FilterOutcome`: the returned dict (`none` stands for
  the empty dict `{}` that the `except` handler and the empty-selection early
  return produce), the list of written files with their row contents, whether
  `os.makedirs` ran, and whether an exception was raised and caught by the
  `try/except` wrapper (no exception ever escapes to the caller).
- `os.path.join(a, b)` is modelled as `a ++ "/" ++ b`.
- Python `str.replace` with one-character patterns is a character map.
- pandas `Series.sum` on numeric or boolean data is an integer fold;
  `.round(2)` is the identity on these integer-valued aggregates and is not
  modelled separately.
-/

/-- A scalar cell value of a loaded table (string, integer, boolean or null). -/
inductive Value where
  | str (s : String)
  | int (n : Int)
  | bool (b : Bool)
  | null
deriving DecidableEq, Repr

/-- Python `str()` applied to a cell value, as used on `device_id` at
`src/tachfile.py:72` when building the sanitized file name. -/
def Value.toStr : Value → String
  | .str s => s
  | .int n => toString n
  | .bool b => if b then "True" else "False"
  | .null => "None"

/-- Numeric view of a cell value, the model of how pandas `Series.sum`
treats numeric and boolean data (booleans count as 0/1, nulls are skipped,
i.e. contribute 0). -/
def Value.toInt : Value → Int
  | .int n => n
  | .bool b => if b then 1 else 0
  | .str _ => 0
  | .null => 0

/-- One table row: an association list from column name to value. -/
abbrev Row := List (String × Value)

/-- Cell access `row[column]`: the stored value, or null when the row has no
entry for the column (pandas materialises missing cells as NaN). -/
def rowGet (r : Row) (c : String) : Value := (r.lookup c).getD Value.null

/-- An in-memory table: the loaded DataFrame. -/
structure Table where
  columns : List String
  rows : List Row
deriving DecidableEq, Repr

/-- The column of values `df[c]`, one per row. -/
def Table.colValues (df : Table) (c : String) : List Value :=
  df.rows.map (fun r => rowGet r c)

/-- First-seen-order deduplication with an accumulator of already seen
values; helper for `uniqueList`. -/
def uniqueSeen : List Value → List Value → List Value
  | [], _ => []
  | v :: vs, seen =>
      if v ∈ seen then uniqueSeen vs seen else v :: uniqueSeen vs (v :: seen)

/-- pandas `Series.unique()`: the distinct values of a list in first-seen
order (`src/tachfile.py:47`). -/
def uniqueList (l : List Value) : List Value := uniqueSeen l []

/-- pandas scalar comparison as used by `df[col] == device_id`: a null
(NaN/None in the loaded frame) compares unequal to everything, itself
included; non-null scalars compare by equality. -/
def pandasEqB : Value → Value → Bool
  | .null, _ => false
  | .str _, .null => false
  | .int _, .null => false
  | .bool _, .null => false
  | a, b => a == b

/-- The row subset `df[df[device_column] == device_id]`
(`src/tachfile.py:69`).  Because NaN comparisons are always False, a null
device key — which `unique()` does report — selects an empty subset, and a
row with a null device value belongs to no subset. -/
def deviceRows (df : Table) (device_column : String) (d : Value) : List Row :=
  df.rows.filter (fun r => pandasEqB (rowGet r device_column) d)

/-- `str(device_id).replace('/', '_').replace('\\', '_')`
(`src/tachfile.py:72`); single-character `str.replace` maps each matching
character to the replacement. -/
def safe_device_name (d : Value) : String :=
  String.mk (d.toStr.data.map (fun c => if c = '/' then '_' else c)
    |>.map (fun c => if c = '\\' then '_' else c))

/-- The bare output file name `device_<safe_name><ext>`
(`src/tachfile.py:75,79,83`). -/
def deviceFileName (d : Value) (ext : String) : String :=
  "device_" ++ safe_device_name d ++ ext

/-- `os.path.join(output_dir, file_name)`. -/
def devicePath (output_dir : String) (d : Value) (ext : String) : String :=
  output_dir ++ "/" ++ deviceFileName d ext

/-- Python `str.lower()`, modelled characterwise (exact for the ASCII
format names the dispatch compares against). -/
def lowerStr (s : String) : String := String.mk (s.data.map Char.toLower)

/-- The output-format dispatch of the per-device loop
(`src/tachfile.py:74-87`): `file_format.lower()` selects the extension, any
other value hits the `raise` branch (`none`). -/
def formatExt (fmt : String) : Option String :=
  if lowerStr fmt = "csv" then some ".csv"
  else if lowerStr fmt = "json" then some ".json"
  else if lowerStr fmt = "excel" then some ".xlsx"
  else none

/-- Per-device entry of `stats['devices_processed']`
(`src/tachfile.py:90-93`). -/
structure DeviceStat where
  records_count : Nat
  output_file : String
deriving DecidableEq, Repr

/-- The stats dict built at `src/tachfile.py:59-64` and filled by the loop. -/
structure Stats where
  total_devices : Nat
  total_records : Nat
  devices_processed : List (Value × DeviceStat)
  output_files : List String
deriving DecidableEq, Repr

/-- The observable outcome of one `filter_data_by_device` call: the returned
dict (`none` models the empty dict `{}`), the files written with their row
contents, whether the output directory was created, and whether an exception
was raised and caught by the surrounding `try/except`. -/
structure FilterOutcome where
  ret : Option Stats
  written : List (String × List Row)
  dirCreated : Bool
  errorCaught : Bool
deriving DecidableEq, Repr

/-- One file write applied to the directory state: `to_csv`/`to_json`/
`to_excel` overwrite a pre-existing file at the same path without warning,
so the state keeps one entry per path — replaced on rewrite, appended on
first write. -/
def overwrite (files : List (String × List Row)) (entry : String × List Row) :
    List (String × List Row) :=
  if files.any (fun e => e.1 == entry.1) then
    files.map (fun e => if e.1 == entry.1 then (e.1, entry.2) else e)
  else files ++ [entry]

/-- The final directory state after a sequence of file writes, in order. -/
def writeAll (entries : List (String × List Row)) : List (String × List Row) :=
  entries.foldl overwrite []

/-- The outcome of a run of the per-device loop over `devs` with a valid
extension `ext`: stats accumulated at `src/tachfile.py:59-94` and one file
written per device.  Two device keys whose sanitized names collide write to
the same path, the later overwriting the earlier (`writeAll`).  With
`devs = []` this is exactly the initial stats dict returned when the loop
body never runs. -/
def goodOutcome (df : Table) (output_dir device_column ext : String)
    (devs : List Value) : FilterOutcome :=
  { ret := some
      { total_devices := devs.length
        total_records := df.rows.length
        devices_processed := devs.map (fun d =>
            (d, { records_count := (deviceRows df device_column d).length
                  output_file := devicePath output_dir d ext }))
        output_files := devs.map (fun d => devicePath output_dir d ext) }
    written := writeAll (devs.map (fun d =>
        (devicePath output_dir d ext, deviceRows df device_column d)))
    dirCreated := true
    errorCaught := false }

/-- The per-device loop (`src/tachfile.py:67-97`).  With a valid format every
device is written; with an invalid format the first iteration raises before
writing anything, so the handler returns `{}` — but when `devs` is empty the
loop body never runs, the format is never inspected, and the initial stats
dict is returned. -/
def runLoop (df : Table) (output_dir device_column file_format : String)
    (devs : List Value) : FilterOutcome :=
  match formatExt file_format with
  | some ext => goodOutcome df output_dir device_column ext devs
  | none =>
      if devs = [] then goodOutcome df output_dir device_column "" devs
      else { ret := none, written := [], dirCreated := true, errorCaught := true }

/-- The device keys the loop iterates over (`src/tachfile.py:47-51`): the
distinct column values, filtered by the allow-list only when
`specific_devices` is truthy (a non-`None`, non-empty list). -/
def selectedDevices (df : Table) (device_column : String)
    (specific_devices : Option (List Value)) : List Value :=
  match specific_devices with
  | some l =>
      if l ≠ [] then
        (uniqueList (df.colValues device_column)).filter (fun d => l.contains d)
      else uniqueList (df.colValues device_column)
  | none => uniqueList (df.colValues device_column)

/-- `filter_data_by_device` (`src/tachfile.py:5-103`), over an
already-loaded table.  The missing-column check precedes `os.makedirs`; the
empty-selection early return (`src/tachfile.py:52-54`) fires only when
`specific_devices` is truthy and filters out every discovered key; the
`except` handler converts any raised error into the empty dict. -/
def filter_data_by_device (df : Table) (output_dir device_column file_format : String)
    (specific_devices : Option (List Value)) : FilterOutcome :=
  if device_column ∈ df.columns then
    match specific_devices with
    | some l =>
        if l ≠ [] then
          if (uniqueList (df.colValues device_column)).filter (fun d => l.contains d) = [] then
            { ret := none, written := [], dirCreated := true, errorCaught := false }
          else
            runLoop df output_dir device_column file_format
              ((uniqueList (df.colValues device_column)).filter (fun d => l.contains d))
        else
          runLoop df output_dir device_column file_format
            (uniqueList (df.colValues device_column))
    | none =>
        runLoop df output_dir device_column file_format
          (uniqueList (df.colValues device_column))
  else
    { ret := none, written := [], dirCreated := false, errorCaught := true }

/-- The allow-list predicate as the claims state it, read over the effective
behaviour of the source: a device value is admitted when `specific_devices`
is `None` or the empty list (both falsy, hence no restriction), and
otherwise exactly when it is a member of the list. -/
def allowedDevice (specific_devices : Option (List Value)) (v : Value) : Bool :=
  match specific_devices with
  | some l => if l ≠ [] then l.contains v else true
  | none => true

/-- Comparison used for the `min`/`max` aggregation of `created_at`
(`src/tachfile.py:132`).  Faithful on the homogeneous columns pandas can
actually order (integers, strings, booleans); on mixed data pandas raises,
and the model fixes an arbitrary order there instead (no theorem depends on
that case). -/
def Value.leB : Value → Value → Bool
  | .null, _ => true
  | _, .null => false
  | .int m, .int n => decide (m ≤ n)
  | .str a, .str b => decide (a ≤ b)
  | .bool a, .bool b => !a || b
  | .int _, _ => true
  | _, .int _ => false
  | .str _, _ => true
  | _, .str _ => false

/-- pandas `min` of a group's values. -/
def listMinV : List Value → Value
  | [] => Value.null
  | v :: vs => vs.foldl (fun a b => if Value.leB a b then a else b) v

/-- pandas `max` of a group's values. -/
def listMaxV : List Value → Value
  | [] => Value.null
  | v :: vs => vs.foldl (fun a b => if Value.leB a b then b else a) v

/-- pandas `Series.sum` of a group's values on the numeric/boolean model. -/
def listSumV (l : List Value) : Value := Value.int ((l.map Value.toInt).sum)

/-- pandas `Series.mean` on the integer model (integer division; this is the
dead `'mean'` fallback of `src/tachfile.py:134`, unreachable because the
aggregation fails first when `active_time` is absent). -/
def listMeanV (l : List Value) : Value :=
  Value.int ((l.map Value.toInt).sum / (l.length : Int))

/-- One row of the summary DataFrame after the column renaming at
`src/tachfile.py:138-139`. -/
structure SummaryRow where
  device : Value
  Total_Records : Nat
  First_Record : Value
  Last_Record : Value
  Online_Count : Value
  Total_Active_Time : Value
deriving DecidableEq, Repr

/-- The aggregation body of `src/tachfile.py:130-135` for one device group:
`'id': 'count'` counts non-null ids; `'created_at': ['min', 'max']`;
`'online'`: the lambda sums when the column is present (the `'N/A'` branch is
kept as in the source, though it is unreachable: when `online` is absent the
aggregation itself raises before calling the lambda); `'active_time'`:
`'sum'` when present, else `'mean'` (equally unreachable). -/
def summarize (df : Table) (device_column : String) (d : Value) : SummaryRow :=
  let g := deviceRows df device_column d
  { device := d
    Total_Records := g.countP (fun r => rowGet r "id" != Value.null)
    First_Record := listMinV (g.map (fun r => rowGet r "created_at"))
    Last_Record := listMaxV (g.map (fun r => rowGet r "created_at"))
    Online_Count :=
      if "online" ∈ df.columns then listSumV (g.map (fun r => rowGet r "online"))
      else Value.str "N/A"
    Total_Active_Time :=
      if "active_time" ∈ df.columns then listSumV (g.map (fun r => rowGet r "active_time"))
      else listMeanV (g.map (fun r => rowGet r "active_time")) }

/-- `get_device_summary` (`src/tachfile.py:106-145`), over an already-loaded
table.  `df.groupby(device_column)` raises `KeyError` when the grouping
column is missing, and `.agg` raises `KeyError` for each of its dict keys
`id`, `created_at`, `online`, `active_time` that the table lacks; any raise
is caught at `src/tachfile.py:143-145` and turned into the empty DataFrame
(`[]` here).  `groupby` drops null keys; its key ordering (pandas sorts) is
modelled as first-seen order, and no theorem depends on the order. -/
def get_device_summary (df : Table) (device_column : String) : List SummaryRow :=
  if device_column ∈ df.columns ∧ "id" ∈ df.columns ∧ "created_at" ∈ df.columns
      ∧ "online" ∈ df.columns ∧ "active_time" ∈ df.columns then
    ((uniqueList (df.colValues device_column)).filter (fun d => d != Value.null)).map
      (summarize df device_column)
  else []

/-- Concrete table: one row with device "A". -/
def exTableA : Table :=
  { columns := ["device"], rows := [[("device", Value.str "A")]] }

/-- Concrete table: three rows with devices A, B, A (the spec's scenario). -/
def exTableAB : Table :=
  { columns := ["device"]
    rows := [[("device", Value.str "A")], [("device", Value.str "B")],
             [("device", Value.str "A")]] }

/-- Concrete table: a device column but no rows (e.g. a header-only CSV). -/
def exTableEmpty : Table := { columns := ["device"], rows := [] }

/-- Concrete table with every column the summary aggregation needs except
`online`. -/
def exTableNoOnline : Table :=
  { columns := ["device", "id", "created_at", "active_time"]
    rows := [[("device", Value.str "A"), ("id", Value.int 1),
              ("created_at", Value.int 10), ("active_time", Value.int 5)]] }

/-- Concrete table with all summary columns and a non-boolean `online`
value. -/
def exTableOnline : Table :=
  { columns := ["device", "id", "created_at", "online", "active_time"]
    rows := [[("device", Value.str "A"), ("id", Value.int 1),
              ("created_at", Value.int 10), ("online", Value.int 2),
              ("active_time", Value.int 5)]] }

/-- Concrete table with all summary columns and boolean `online` values. -/
def exTableOnlineBool : Table :=
  { columns := ["device", "id", "created_at", "online", "active_time"]
    rows := [[("device", Value.str "A"), ("id", Value.int 1),
              ("created_at", Value.int 10), ("online", Value.bool true),
              ("active_time", Value.int 5)],
             [("device", Value.str "A"), ("id", Value.int 2),
              ("created_at", Value.int 20), ("online", Value.bool false),
              ("active_time", Value.int 7)]] }

/-- Concrete table with a null device value in the middle row (a blank CSV
cell loads as NaN). -/
def exTableNull : Table :=
  { columns := ["device"]
    rows := [[("device", Value.str "A")], [("device", Value.null)],
             [("device", Value.str "A")]] }

/-- Concrete table with two device keys whose sanitized names collide:
`"a/b"` and `"a_b"` both yield the file name `device_a_b.<ext>`. -/
def exTableSlash : Table :=
  { columns := ["device", "id"]
    rows := [[("device", Value.str "a/b"), ("id", Value.int 1)],
             [("device", Value.str "a_b"), ("id", Value.int 2)]] }

/-- Python truthiness of a cell value (`bool(x)`), used to state "count of
truthy values" claims about the `online` column. -/
def truthyValue : Value → Bool
  | .bool b => b
  | .int n => decide (n ≠ 0)
  | .str s => decide (s ≠ "")
  | .null => false

/-- The stats dict `filter_data_by_device` returns on `exTableAB` with
allow-list `["A"]` and csv output into `"out"`. -/
def exStatsAB : Stats :=
  { total_devices := 1
    total_records := 3
    devices_processed :=
      [(Value.str "A", { records_count := 2, output_file := "out/device_A.csv" })]
    output_files := ["out/device_A.csv"] }

/-- The stats dict `filter_data_by_device` returns on `exTableNull` with no
allow-list and csv output into `"out"`: the null key discovered by
`unique()` gets an entry with `records_count = 0`. -/
def exStatsNull : Stats :=
  { total_devices := 2
    total_records := 3
    devices_processed :=
      [(Value.str "A", { records_count := 2, output_file := "out/device_A.csv" }),
       (Value.null, { records_count := 0, output_file := "out/device_None.csv" })]
    output_files := ["out/device_A.csv", "out/device_None.csv"] }

/-- The summary row `get_device_summary` produces for device "A" of
`exTableOnlineBool`. -/
def exSummaryRowA : SummaryRow :=
  { device := Value.str "A"
    Total_Records := 2
    First_Record := Value.int 10
    Last_Record := Value.int 20
    Online_Count := Value.int 1
    Total_Active_Time := Value.int 12 }

/-! ## Basic lemmas about the embedded operations -/

/-- Membership in the first-seen deduplication: a value occurs iff it occurs
in the input and was not already seen. -/
theorem mem_uniqueSeen (x : Value) :
    ∀ (l seen : List Value), x ∈ uniqueSeen l seen ↔ x ∈ l ∧ x ∉ seen := by
  intro l
  induction l with
  | nil => intro seen; simp [uniqueSeen]
  | cons v vs ih =>
    intro seen
    by_cases hv : v ∈ seen
    · rw [uniqueSeen, if_pos hv, ih]
      constructor
      · rintro ⟨hmem, hns⟩
        exact ⟨List.mem_cons_of_mem v hmem, hns⟩
      · rintro ⟨hmem, hns⟩
        rcases List.mem_cons.mp hmem with rfl | hmem
        · exact absurd hv hns
        · exact ⟨hmem, hns⟩
    · rw [uniqueSeen, if_neg hv]
      rw [List.mem_cons, ih]
      constructor
      · rintro (rfl | ⟨hmem, hns⟩)
        · exact ⟨List.mem_cons_self x vs, hv⟩
        · refine ⟨List.mem_cons_of_mem v hmem, ?_⟩
          intro hxs
          exact hns (List.mem_cons_of_mem v hxs)
      · rintro ⟨hmem, hns⟩
        by_cases hxv : x = v
        · exact Or.inl hxv
        · rcases List.mem_cons.mp hmem with h1 | hmem2
          · exact absurd h1 hxv
          · refine Or.inr ⟨hmem2, ?_⟩
            intro hxvseen
            rcases List.mem_cons.mp hxvseen with h1 | hxs
            · exact hxv h1
            · exact hns hxs

/-- The deduplicated list has no duplicates. -/
theorem nodup_uniqueSeen : ∀ (l seen : List Value), (uniqueSeen l seen).Nodup := by
  intro l
  induction l with
  | nil => intro seen; simp [uniqueSeen]
  | cons v vs ih =>
    intro seen
    by_cases hv : v ∈ seen
    · rw [uniqueSeen, if_pos hv]; exact ih seen
    · rw [uniqueSeen, if_neg hv]
      rw [List.nodup_cons]
      refine ⟨?_, ih (v :: seen)⟩
      intro hmem
      exact ((mem_uniqueSeen v vs (v :: seen)).mp hmem).2 (List.mem_cons_self v seen)

/-- Membership in `uniqueList`. -/
theorem mem_uniqueList (x : Value) (l : List Value) : x ∈ uniqueList l ↔ x ∈ l := by
  rw [uniqueList, mem_uniqueSeen]
  simp

/-- `uniqueList` has no duplicates. -/
theorem nodup_uniqueList (l : List Value) : (uniqueList l).Nodup :=
  nodup_uniqueSeen l []

/-- Splitting a filter over two predicates that never both hold yields a
permutation of the filter over their disjunction. -/
theorem filter_disjoint_perm {α : Type} (p q : α → Bool)
    (hdisj : ∀ x, p x = true → q x = false) (l : List α) :
    ((l.filter p) ++ (l.filter q)).Perm (l.filter (fun x => p x || q x)) := by
  induction l with
  | nil => simp
  | cons a l ih =>
    by_cases hp : p a = true
    · have hq : q a = false := hdisj a hp
      simpa [List.filter_cons, hp, hq] using ih.cons a
    · have hp2 : p a = false := Bool.eq_false_iff.mpr hp
      by_cases hq : q a = true
      · simp only [List.filter_cons, hp2, hq, Bool.false_or, if_pos, if_neg,
          Bool.false_eq_true, not_false_eq_true, ite_true, ite_false]
        exact List.perm_middle.trans (ih.cons a)
      · have hq2 : q a = false := Bool.eq_false_iff.mpr hq
        simpa [List.filter_cons, hp2, hq2] using ih

/-- Characterisation of the pandas comparison: it holds exactly for equal
non-null values. -/
theorem pandasEqB_eq_true {a b : Value} :
    pandasEqB a b = true ↔ a = b ∧ a ≠ Value.null := by
  cases a <;> cases b <;> simp [pandasEqB]

/-- Merging one key's selection into the selection over the remaining keys:
pointwise, selecting by pandas equality with `d` or by membership in `ds`
(among non-null values) is selecting by membership in `d :: ds` among
non-null values. -/
theorem union_pred_step (v d : Value) (ds : List Value) :
    (pandasEqB v d || (ds.contains v && !(v == Value.null)))
      = ((d :: ds).contains v && !(v == Value.null)) := by
  rw [List.contains_cons]
  by_cases hn : v = Value.null
  · subst hn
    have h0 : pandasEqB Value.null d = false := rfl
    rw [h0]
    simp
  · have hnn : (v == Value.null) = false := beq_eq_false_iff_ne.mpr hn
    rw [hnn]
    by_cases hvd : v = d
    · subst hvd
      have h1 : pandasEqB v v = true := pandasEqB_eq_true.mpr ⟨rfl, hn⟩
      have h2 : (v == v) = true := by simp
      rw [h1, h2]
      simp
    · have h1 : pandasEqB v d = false := by
        rw [Bool.eq_false_iff]
        intro hcontra
        exact hvd (pandasEqB_eq_true.mp hcontra).1
      have h2 : (v == d) = false := beq_eq_false_iff_ne.mpr hvd
      rw [h1, h2]
      simp

/-- The per-device subsets over a duplicate-free key list, concatenated,
are a permutation of the rows whose key occurs in the list and is non-null:
the grouping of `src/tachfile.py:67-69` partitions the selected rows with a
non-null device value, and drops rows with a null one (NaN never compares
equal, so the null key's subset is empty). -/
theorem flatten_groups_perm {α : Type} (f : α → Value) (l : List α) :
    ∀ devs : List Value, devs.Nodup →
      ((devs.map (fun d => l.filter (fun x => pandasEqB (f x) d))).flatten).Perm
        (l.filter (fun x => devs.contains (f x) && !(f x == Value.null))) := by
  intro devs
  induction devs with
  | nil => intro _; simp
  | cons d ds ih =>
    intro hnd
    rw [List.nodup_cons] at hnd
    have h1 := ih hnd.2
    have hdisj : ∀ x, (pandasEqB (f x) d) = true →
        (ds.contains (f x) && !(f x == Value.null)) = false := by
      intro x hx
      obtain ⟨hfx, -⟩ := pandasEqB_eq_true.mp hx
      rw [hfx]
      have hdds : ds.contains d = false := by simpa using hnd.1
      rw [hdds]
      rfl
    have h2 := (List.Perm.append_left (l.filter (fun x => pandasEqB (f x) d)) h1).trans
      (filter_disjoint_perm (fun x => pandasEqB (f x) d)
        (fun x => ds.contains (f x) && !(f x == Value.null)) hdisj l)
    rw [List.map_cons, List.flatten_cons]
    refine h2.trans ?_
    have hpt : (fun x => (pandasEqB (f x) d
          || (ds.contains (f x) && !(f x == Value.null))))
        = (fun x => (d :: ds).contains (f x) && !(f x == Value.null)) := by
      funext x
      exact union_pred_step (f x) d ds
    rw [hpt]

/-- The value a row holds in a column occurs among the distinct values of
that column. -/
theorem rowGet_mem_uniqueList (df : Table) (dc : String) (r : Row)
    (hr : r ∈ df.rows) : rowGet r dc ∈ uniqueList (df.colValues dc) := by
  rw [mem_uniqueList]
  exact List.mem_map.mpr ⟨r, hr, rfl⟩

/-- The selected device keys are duplicate-free. -/
theorem nodup_selectedDevices (df : Table) (dc : String)
    (sd : Option (List Value)) : (selectedDevices df dc sd).Nodup := by
  rcases sd with _ | l
  · exact nodup_uniqueList _
  · rw [selectedDevices]
    by_cases hl : l ≠ []
    · rw [if_pos hl]
      exact (nodup_uniqueList _).filter _
    · rw [if_neg hl]
      exact nodup_uniqueList _

/-- For a row of the table, membership of its device value in the selected
keys is exactly the effective allow-list test. -/
theorem contains_selectedDevices (df : Table) (dc : String)
    (sd : Option (List Value)) (r : Row) (hr : r ∈ df.rows) :
    (selectedDevices df dc sd).contains (rowGet r dc)
      = allowedDevice sd (rowGet r dc) := by
  have huniq : rowGet r dc ∈ uniqueList (df.colValues dc) :=
    rowGet_mem_uniqueList df dc r hr
  rcases sd with _ | l
  · simp [selectedDevices, allowedDevice, huniq]
  · rw [selectedDevices, allowedDevice]
    by_cases hl : l ≠ []
    · rw [if_pos hl, if_pos hl]
      rw [Bool.eq_iff_iff]
      simp [List.mem_filter, huniq]
    · rw [if_neg hl, if_neg hl]
      simp [huniq]

/-- Splitting the length of a list by a predicate and its negation. -/
theorem length_filter_split {α : Type} (p : α → Bool) (l : List α) :
    (l.filter p).length + (l.filter (fun x => !(p x))).length = l.length := by
  induction l with
  | nil => simp
  | cons a l ih =>
    by_cases hp : p a = true
    · simp only [List.filter_cons, hp, Bool.not_true, ite_true, ite_false,
        Bool.false_eq_true, List.length_cons]
      omega
    · have hp2 : p a = false := Bool.eq_false_iff.mpr hp
      simp only [List.filter_cons, hp2, Bool.not_false, ite_true, ite_false,
        Bool.false_eq_true, List.length_cons]
      omega

/-- pandas `sum` over an all-boolean column equals the count of truthy
values. -/
theorem listSumV_bool (l : List Value)
    (hb : ∀ v ∈ l, ∃ b, v = Value.bool b) :
    listSumV l = Value.int (l.countP truthyValue) := by
  induction l with
  | nil => simp [listSumV]
  | cons v vs ih =>
    obtain ⟨b, rfl⟩ := hb v (List.mem_cons_self v vs)
    have ih2 := ih (fun w hw => hb w (List.mem_cons_of_mem _ hw))
    simp only [listSumV, List.map_cons, List.sum_cons] at ih2 ⊢
    have hsum : ((vs.map Value.toInt).sum) = ((vs.countP truthyValue : Nat) : Int) := by
      injection ih2
    rw [hsum, List.countP_cons]
    cases b
    · simp [Value.toInt, truthyValue]
    · simp only [Value.toInt, truthyValue, ite_true]
      rw [Value.int.injEq]
      push_cast
      ring

/-- A loop run whose returned dict is non-empty is a full good run over its
device list (for an empty device list the loop body — and with it the format
check — never executes, so the extension is irrelevant). -/
theorem runLoop_success (df : Table) (od dc fmt : String) (devs : List Value)
    (h : ((runLoop df od dc fmt devs).ret).isSome = true) :
    ∃ ext, runLoop df od dc fmt devs = goodOutcome df od dc ext devs := by
  rw [runLoop] at h ⊢
  cases hfe : formatExt fmt with
  | some ext => exact ⟨ext, rfl⟩
  | none =>
    rw [hfe] at h
    dsimp only at h
    by_cases hd : devs = []
    · rw [if_pos hd]
      exact ⟨"", rfl⟩
    · rw [if_neg hd] at h
      exact Bool.noConfusion h

/-- With the device column present, a call either takes the empty-selection
early return of `src/tachfile.py:52-54` (possible only for a truthy
allow-list that filters out every key) or runs the loop over the selected
keys. -/
theorem filter_eq_cases (df : Table) (od dc fmt : String)
    (sd : Option (List Value)) (hc : dc ∈ df.columns) :
    (filter_data_by_device df od dc fmt sd =
        { ret := none, written := [], dirCreated := true, errorCaught := false }
      ∧ ∃ l, sd = some l ∧ l ≠ [] ∧ selectedDevices df dc sd = [])
    ∨ filter_data_by_device df od dc fmt sd
        = runLoop df od dc fmt (selectedDevices df dc sd) := by
  rw [filter_data_by_device.eq_def, if_pos hc]
  rcases sd with _ | l
  · exact Or.inr rfl
  · dsimp only
    by_cases hl : l ≠ []
    · have hsel : selectedDevices df dc (some l)
          = (uniqueList (df.colValues dc)).filter (fun d => l.contains d) := by
        rw [selectedDevices, if_pos hl]
      rw [hsel, if_pos hl]
      by_cases hdev :
          (uniqueList (df.colValues dc)).filter (fun d => l.contains d) = []
      · rw [if_pos hdev]
        exact Or.inl ⟨rfl, l, rfl, hl, hdev⟩
      · rw [if_neg hdev]
        exact Or.inr rfl
    · have hsel : selectedDevices df dc (some l)
          = uniqueList (df.colValues dc) := by
        rw [selectedDevices, if_neg hl]
      rw [hsel, if_neg hl]
      exact Or.inr rfl

/-- A call whose returned dict is non-empty found the device column and
produced the full good outcome over its selected keys. -/
theorem filter_success (df : Table) (od dc fmt : String)
    (sd : Option (List Value))
    (h : ((filter_data_by_device df od dc fmt sd).ret).isSome = true) :
    dc ∈ df.columns ∧ ∃ ext, filter_data_by_device df od dc fmt sd
        = goodOutcome df od dc ext (selectedDevices df dc sd) := by
  by_cases hc : dc ∈ df.columns
  · refine ⟨hc, ?_⟩
    rcases filter_eq_cases df od dc fmt sd hc with ⟨heq, -⟩ | heq
    · rw [heq] at h
      simp at h
    · rw [heq] at h ⊢
      exact runLoop_success df od dc fmt (selectedDevices df dc sd) h
  · rw [filter_data_by_device.eq_def, if_neg hc] at h
    simp at h

/-- Summing the per-device subset sizes over a duplicate-free key list
counts exactly the rows whose key is in the list and non-null. -/
theorem sum_group_lengths (df : Table) (dc : String) (devs : List Value)
    (hnd : devs.Nodup) :
    (devs.map (fun d => (deviceRows df dc d).length)).sum
      = (df.rows.filter (fun r => devs.contains (rowGet r dc)
          && !(rowGet r dc == Value.null))).length := by
  have hlen := (flatten_groups_perm (fun r => rowGet r dc) df.rows devs hnd).length_eq
  rw [List.length_flatten, List.map_map] at hlen
  exact hlen

/-- Folding the write sequence over a state whose paths stay pairwise
distinct never overwrites: the final directory state is the write list
itself. -/
theorem foldl_overwrite_of_nodup :
    ∀ (entries acc : List (String × List Row)),
      ((acc ++ entries).map Prod.fst).Nodup →
      entries.foldl overwrite acc = acc ++ entries := by
  intro entries
  induction entries with
  | nil =>
    intro acc _
    simp
  | cons e es ih =>
    intro acc hnd
    have hnotin : e.1 ∉ acc.map Prod.fst := by
      intro hmem
      rw [List.map_append] at hnd
      exact (List.nodup_append.mp hnd).2.2 hmem (by simp)
    have hany : acc.any (fun x => x.1 == e.1) = false := by
      rw [List.any_eq_false]
      intro x hx hbeq
      exact hnotin ((eq_of_beq hbeq) ▸ List.mem_map_of_mem Prod.fst hx)
    have hover : overwrite acc e = acc ++ [e] := by
      rw [overwrite, if_neg (by rw [hany]; exact Bool.false_ne_true)]
    rw [List.foldl_cons, hover,
      ih (acc ++ [e]) (by simpa [List.append_assoc] using hnd)]
    simp

/-- With pairwise distinct paths the final directory state is exactly the
write list. -/
theorem writeAll_of_nodup (entries : List (String × List Row))
    (h : (entries.map Prod.fst).Nodup) : writeAll entries = entries := by
  rw [writeAll, foldl_overwrite_of_nodup entries [] (by simpa using h)]
  simp

/-- Pairwise distinct sanitized device names give pairwise distinct output
paths (the directory, the `device_` prefix and the extension are common to
all of them). -/
theorem nodup_devicePaths (od ext : String) (devs : List Value)
    (h : (devs.map safe_device_name).Nodup) :
    (devs.map (fun d => devicePath od d ext)).Nodup := by
  have hcomp : devs.map (fun d => devicePath od d ext)
      = (devs.map safe_device_name).map
          (fun s => od ++ "/" ++ ("device_" ++ s ++ ext)) := by
    rw [List.map_map]
    rfl
  rw [hcomp]
  refine List.Nodup.map ?_ h
  intro s1 s2 heq
  have hdata := congrArg String.data heq
  simp only [String.data_append, List.append_assoc] at hdata
  have h1 := List.append_cancel_left hdata
  have h2 := List.append_cancel_left h1
  have h3 := List.append_cancel_left h2
  have h4 := List.append_cancel_right h3
  cases s1
  cases s2
  exact congrArg String.mk h4

/-- Claim C3: for every input table that does not contain the given
`device_column`, `filter_data_by_device` returns the empty result (`{}`),
writes no output file, creates no output directory, and surfaces no
exception to the caller: the `ValueError` raised at `src/tachfile.py:40-41`
— before `os.makedirs` — is caught by the handler at
`src/tachfile.py:101-103`. -/
theorem claim_C3 (df : Table) (od dc fmt : String) (sd : Option (List Value))
    (h : dc ∉ df.columns) :
    filter_data_by_device df od dc fmt sd =
      { ret := none, written := [], dirCreated := false, errorCaught := true } := by
  rw [filter_data_by_device.eq_def, if_neg h]

/-- Witness for C3 at a concrete input: the column "missing" is absent from
`exTableA` and the call returns the empty outcome. -/
theorem claim_C3_witness :
    ("missing" ∉ exTableA.columns)
      ∧ filter_data_by_device exTableA "out" "missing" "csv" none =
          { ret := none, written := [], dirCreated := false, errorCaught := true } :=
  ⟨by decide, claim_C3 exTableA "out" "missing" "csv" none (by decide)⟩

/-- Claim C8: for every input table lacking an `id` column,
`get_device_summary` fails and returns an empty table: the aggregation dict
at `src/tachfile.py:131` unconditionally references the `id` column, so
pandas raises before any summary row is produced and the handler at
`src/tachfile.py:143-145` returns the empty DataFrame. -/
theorem claim_C8 (df : Table) (dc : String) (h : "id" ∉ df.columns) :
    get_device_summary df dc = [] := by
  rw [get_device_summary, if_neg (fun hcond => h hcond.2.1)]

/-- Witness for C8 at a concrete input: `exTableA` has no `id` column and
its summary is empty. -/
theorem claim_C8_witness :
    ("id" ∉ exTableA.columns) ∧ get_device_summary exTableA "device" = [] :=
  ⟨by decide, claim_C8 exTableA "device" (by decide)⟩

/-- Claim C6: the sanitized file name replaces every `/` and `\` of the
stringified device key with `_` (`src/tachfile.py:72`), so the output file
name `device_<safe_key><ext>` contains no path-separator character for any
of the three extensions the loop can attach. -/
theorem claim_C6 (d : Value) :
    (safe_device_name d).data
        = d.toStr.data.map (fun c => if c = '/' ∨ c = '\\' then '_' else c)
      ∧ ∀ ext, ext ∈ [".csv", ".json", ".xlsx"] →
          '/' ∉ (deviceFileName d ext).data ∧ '\\' ∉ (deviceFileName d ext).data := by
  have hdata : (safe_device_name d).data
      = d.toStr.data.map (fun c => if c = '/' ∨ c = '\\' then '_' else c) := by
    rw [safe_device_name]
    rw [List.map_map]
    apply List.map_congr_left
    intro c _
    by_cases h1 : c = '/'
    · simp [h1]
    · by_cases h2 : c = '\\'
      · simp [h1, h2]
      · simp [h1, h2]
  refine ⟨hdata, ?_⟩
  intro ext hext
  have hext2 : ext = ".csv" ∨ ext = ".json" ∨ ext = ".xlsx" := by
    simpa using hext
  have hsafe : ∀ ch, ch = '/' ∨ ch = '\\' → ch ∉ (safe_device_name d).data := by
    intro ch hch hmem
    rw [hdata] at hmem
    obtain ⟨c, -, hc⟩ := List.mem_map.mp hmem
    by_cases hcs : c = '/' ∨ c = '\\'
    · rw [if_pos hcs] at hc
      rcases hch with rfl | rfl
      · exact absurd hc (by decide)
      · exact absurd hc (by decide)
    · rw [if_neg hcs] at hc
      rcases hch with rfl | rfl
      · exact hcs (Or.inl hc)
      · exact hcs (Or.inr hc)
  have hname : (deviceFileName d ext).data
      = "device_".data ++ (safe_device_name d).data ++ ext.data := by
    rw [deviceFileName, String.data_append, String.data_append]
  constructor
  · intro hmem
    rw [hname] at hmem
    rcases List.mem_append.mp hmem with hmem2 | hmem3
    · rcases List.mem_append.mp hmem2 with hpre | hsafemem
      · revert hpre; decide
      · exact hsafe '/' (Or.inl rfl) hsafemem
    · rcases hext2 with rfl | rfl | rfl
      · revert hmem3; decide
      · revert hmem3; decide
      · revert hmem3; decide
  · intro hmem
    rw [hname] at hmem
    rcases List.mem_append.mp hmem with hmem2 | hmem3
    · rcases List.mem_append.mp hmem2 with hpre | hsafemem
      · revert hpre; decide
      · exact hsafe '\\' (Or.inr rfl) hsafemem
    · rcases hext2 with rfl | rfl | rfl
      · revert hmem3; decide
      · revert hmem3; decide
      · revert hmem3; decide

/-- Witness for C6 at a concrete input: the key `"a/b\\c"` yields a csv file
name free of path separators. -/
theorem claim_C6_witness :
    '/' ∉ (deviceFileName (Value.str "a/b\\c") ".csv").data :=
  ((claim_C6 (Value.str "a/b\\c")).2 ".csv" (by decide)).1

/-- Claim C10: for every input table whose device column exists but has zero
distinct values, with `specific_devices` not provided and an unsupported
`file_format`, the call does not detect the bad format: the check at
`src/tachfile.py:74-87` only runs inside the per-device loop, which never
iterates, so a non-empty stats record with `total_devices = 0` and empty
`devices_processed` is returned instead of the empty mapping. -/
theorem claim_C10 (df : Table) (od dc fmt : String)
    (hc : dc ∈ df.columns)
    (hu : uniqueList (df.colValues dc) = [])
    (hbad : ¬(lowerStr fmt = "csv" ∨ lowerStr fmt = "json" ∨ lowerStr fmt = "excel")) :
    filter_data_by_device df od dc fmt none =
      { ret := some { total_devices := 0, total_records := df.rows.length
                      devices_processed := [], output_files := [] }
        written := [], dirCreated := true, errorCaught := false } := by
  push_neg at hbad
  have hfe : formatExt fmt = none := by
    rw [formatExt, if_neg hbad.1, if_neg hbad.2.1, if_neg hbad.2.2]
  rcases filter_eq_cases df od dc fmt none hc with ⟨-, l, hl, -⟩ | heq
  · exact Option.noConfusion hl
  · rw [heq]
    have hsel : selectedDevices df dc none = uniqueList (df.colValues dc) := rfl
    rw [hsel, hu, runLoop, hfe]
    rfl

/-- Witness for C10 at a concrete input: a header-only table and the format
"xml" yield the full (zero-device) stats record, not the empty mapping. -/
theorem claim_C10_witness :
    ("device" ∈ exTableEmpty.columns)
      ∧ uniqueList (exTableEmpty.colValues "device") = []
      ∧ ¬(lowerStr "xml" = "csv" ∨ lowerStr "xml" = "json" ∨ lowerStr "xml" = "excel")
      ∧ filter_data_by_device exTableEmpty "out" "device" "xml" none =
          { ret := some { total_devices := 0, total_records := exTableEmpty.rows.length
                          devices_processed := [], output_files := [] }
            written := [], dirCreated := true, errorCaught := false } :=
  ⟨by decide, by decide, by decide,
    claim_C10 exTableEmpty "out" "device" "xml" (by decide) (by decide) (by decide)⟩

/-- Counterexample to claim C1 as stated, in three parts.  (1) With
`specific_devices` given as the empty list, the call succeeds and the union
of written rows is the whole table — not the rows whose device value is in
the (empty) allow-list, because `if specific_devices:` at
`src/tachfile.py:50` treats the empty list as absent.  (2) With no
allow-list and a null device value, the union of written rows misses the
null-device row: `unique()` reports the NaN key, but `df[df[col] == nan]`
is empty since NaN never compares equal, so the row lands in no output
file.  (3) With the colliding keys `"a/b"` and `"a_b"`, both sanitize to
`device_a_b.csv` and the second write overwrites the first, so the union of
output files misses the first row. -/
theorem claim_C1_counterexample :
    (((filter_data_by_device exTableA "out" "device" "csv" (some [])).ret).isSome = true
      ∧ ¬ ((((filter_data_by_device exTableA "out" "device" "csv"
              (some [])).written.map Prod.snd).flatten).Perm
            (exTableA.rows.filter
              (fun r => ([] : List Value).contains (rowGet r "device")))))
    ∧ (((filter_data_by_device exTableNull "out" "device" "csv" none).ret).isSome = true
      ∧ ¬ ((((filter_data_by_device exTableNull "out" "device" "csv"
              none).written.map Prod.snd).flatten).Perm exTableNull.rows))
    ∧ (((filter_data_by_device exTableSlash "out" "device" "csv" none).ret).isSome = true
      ∧ (filter_data_by_device exTableSlash "out" "device" "csv" none).written
          = [("out/device_a_b.csv",
              [[("device", Value.str "a_b"), ("id", Value.int 2)]])]
      ∧ ¬ ((((filter_data_by_device exTableSlash "out" "device" "csv"
              none).written.map Prod.snd).flatten).Perm exTableSlash.rows)) := by
  decide

/-- Counterexample to claim C4 as stated: `specific_devices = []` is
provided and its intersection with the discovered keys is empty, yet the
call does not return an empty stats record — it processes every device and
writes a file, because the truthiness test at `src/tachfile.py:50` skips the
allow-list filtering for an empty list. -/
theorem claim_C4_counterexample :
    ((uniqueList (exTableA.colValues "device")).filter
        (fun d => ([] : List Value).contains d)) = []
      ∧ (filter_data_by_device exTableA "out" "device" "csv" (some [])).ret ≠ none
      ∧ (filter_data_by_device exTableA "out" "device" "csv" (some [])).written ≠ [] := by
  decide

/-- Counterexample to claim C5 as stated: on a table whose device column has
no values, an unsupported `file_format` does not make the call fail — the
format check sits inside the never-executed per-device loop, so a non-empty
stats dict is returned and no error is caught. -/
theorem claim_C5_counterexample :
    ¬(lowerStr "xml" = "csv" ∨ lowerStr "xml" = "json" ∨ lowerStr "xml" = "excel")
      ∧ (filter_data_by_device exTableEmpty "out" "device" "xml" none).ret ≠ none
      ∧ (filter_data_by_device exTableEmpty "out" "device" "xml" none).errorCaught
          = false := by
  decide

/-- Counterexample to claim C7 as stated, in both halves: (1) when the
`online` column is absent the summary is empty — no row carries the "N/A"
marker even though a device group exists, because the aggregation dict
references `online` unconditionally and the raised error empties the result;
(2) when `online` is present, `Online_Count` is the column sum, not the
count of truthy values: a single row with `online = 2` has one truthy value
but `Online_Count = 2`. -/
theorem claim_C7_counterexample :
    ("online" ∉ exTableNoOnline.columns
        ∧ uniqueList (exTableNoOnline.colValues "device") ≠ []
        ∧ get_device_summary exTableNoOnline "device" = [])
      ∧ ("online" ∈ exTableOnline.columns
        ∧ (get_device_summary exTableOnline "device").map SummaryRow.Online_Count
            = [Value.int 2]
        ∧ (exTableOnline.colValues "online").countP truthyValue = 1
        ∧ Value.int 2 ≠ Value.int 1) := by
  decide

/-- Claim C1 (amended): for every successful call whose sanitized device
keys give pairwise distinct file names, the per-device output files
partition the selected non-null-device input rows: the union of rows across
all output files is exactly (a permutation of) the input rows whose device
value is non-null and passes the effective allow-list — all non-null-device
rows when `specific_devices` is not given or is given as an empty list,
membership in the list otherwise — no row appears in more than one output
file (the written files are pairwise disjoint), and no output file contains
a row with a null device value.  Rows with a null device value appear in no
output file (NaN never compares equal, so the null key discovered by
`unique()` selects an empty subset), and when two device keys sanitize to
the same file name the later write overwrites the earlier file, dropping
its rows from the output. -/
theorem claim_C1_amended (df : Table) (od dc fmt : String)
    (sd : Option (List Value))
    (h : ((filter_data_by_device df od dc fmt sd).ret).isSome = true)
    (hnames : ((selectedDevices df dc sd).map safe_device_name).Nodup) :
    (((filter_data_by_device df od dc fmt sd).written.map Prod.snd).flatten).Perm
        (df.rows.filter (fun r => allowedDevice sd (rowGet r dc)
          && !(rowGet r dc == Value.null)))
      ∧ ((filter_data_by_device df od dc fmt sd).written).Pairwise
          (fun a b => ∀ r, r ∈ a.2 → r ∉ b.2)
      ∧ (∀ fe ∈ (filter_data_by_device df od dc fmt sd).written,
          ∀ r ∈ fe.2, ¬(rowGet r dc = Value.null)) := by
  obtain ⟨hc, ext, heq⟩ := filter_success df od dc fmt sd h
  rw [heq]
  have hwa : (goodOutcome df od dc ext (selectedDevices df dc sd)).written
      = (selectedDevices df dc sd).map
          (fun d => (devicePath od d ext, deviceRows df dc d)) := by
    rw [goodOutcome]
    dsimp only
    apply writeAll_of_nodup
    rw [List.map_map]
    exact nodup_devicePaths od ext (selectedDevices df dc sd) hnames
  refine ⟨?_, ?_, ?_⟩
  · have hw : ((goodOutcome df od dc ext (selectedDevices df dc sd)).written.map
          Prod.snd)
        = (selectedDevices df dc sd).map
            (fun d => df.rows.filter (fun r => pandasEqB (rowGet r dc) d)) := by
      rw [hwa, List.map_map]
      rfl
    rw [hw]
    have hperm := flatten_groups_perm (fun r => rowGet r dc) df.rows
      (selectedDevices df dc sd) (nodup_selectedDevices df dc sd)
    have hfc : df.rows.filter
          (fun r => (selectedDevices df dc sd).contains (rowGet r dc)
            && !(rowGet r dc == Value.null))
        = df.rows.filter (fun r => allowedDevice sd (rowGet r dc)
            && !(rowGet r dc == Value.null)) := by
      apply List.filter_congr
      intro r hr
      rw [contains_selectedDevices df dc sd r hr]
    rw [hfc] at hperm
    exact hperm
  · rw [hwa]
    refine List.Pairwise.map _ ?_ (nodup_selectedDevices df dc sd)
    intro d1 d2 hne r hr1 hr2
    rw [deviceRows, List.mem_filter] at hr1 hr2
    have h1 : rowGet r dc = d1 := (pandasEqB_eq_true.mp hr1.2).1
    have h2 : rowGet r dc = d2 := (pandasEqB_eq_true.mp hr2.2).1
    exact hne (h1 ▸ h2)
  · rw [hwa]
    intro fe hfe r hr
    obtain ⟨d, -, rfl⟩ := List.mem_map.mp hfe
    rw [deviceRows, List.mem_filter] at hr
    exact (pandasEqB_eq_true.mp hr.2).2

/-- Witness for the C1 amended theorem at a concrete input: the call on
`exTableAB` restricted to device "A" succeeds with a distinct sanitized
name, its written rows are a permutation of the allow-listed
non-null-device input rows, and the written files are pairwise disjoint and
free of null-device rows. -/
theorem claim_C1_amended_witness :
    (((filter_data_by_device exTableAB "out" "device" "csv"
          (some [Value.str "A"])).ret).isSome = true
        ∧ (((selectedDevices exTableAB "device"
            (some [Value.str "A"])).map safe_device_name)).Nodup)
      ∧ ((((filter_data_by_device exTableAB "out" "device" "csv"
            (some [Value.str "A"])).written.map Prod.snd).flatten).Perm
          (exTableAB.rows.filter
            (fun r => allowedDevice (some [Value.str "A"]) (rowGet r "device")
              && !(rowGet r "device" == Value.null)))
        ∧ ((filter_data_by_device exTableAB "out" "device" "csv"
            (some [Value.str "A"])).written).Pairwise
            (fun a b => ∀ r, r ∈ a.2 → r ∉ b.2)
        ∧ (∀ fe ∈ (filter_data_by_device exTableAB "out" "device" "csv"
              (some [Value.str "A"])).written,
            ∀ r ∈ fe.2, ¬(rowGet r "device" = Value.null))) :=
  ⟨⟨by decide, by decide⟩,
    claim_C1_amended exTableAB "out" "device" "csv" (some [Value.str "A"])
      (by decide) (by decide)⟩

/-- Counterexample to claim C2 as stated: on `exTableNull` (rows with
device values A, null, A) with no allow-list, nothing is excluded by an
allow-list, yet the records-count sum is 2 while the table has 3 rows: the
null key reported by `unique()` gets a `devices_processed` entry with
`records_count = 0`, because `df[df[col] == nan]` is empty (NaN never
compares equal), so the null-device row is counted by no entry. -/
theorem claim_C2_counterexample :
    (filter_data_by_device exTableNull "out" "device" "csv" none).ret
        = some exStatsNull
      ∧ (exStatsNull.devices_processed.map (fun e => e.2.records_count)).sum = 2
      ∧ exTableNull.rows.length = 3
      ∧ (2 : Nat) ≠ 3 := by
  decide

/-- Claim C2 (amended): for every successful call, the sum of
`records_count` over the returned `devices_processed` equals the number of
input rows whose device value is non-null and was processed —
equivalently, the total input rows minus the rows whose device value was
not processed or is null; under a provided non-empty allow-list the
uncounted rows are exactly those whose device value is not in the list or
is null, and with no allow-list the sum is the full row count minus the
rows with a null device value (a null key discovered by `unique()` gets a
`devices_processed` entry with `records_count = 0`, since NaN equality
selects no rows). -/
theorem claim_C2_amended (df : Table) (od dc fmt : String)
    (sd : Option (List Value)) (stats : Stats)
    (h : (filter_data_by_device df od dc fmt sd).ret = some stats) :
    ((stats.devices_processed.map (fun e => e.2.records_count)).sum
        = (df.rows.filter (fun r =>
            (stats.devices_processed.map Prod.fst).contains (rowGet r dc)
              && !(rowGet r dc == Value.null))).length)
      ∧ ((stats.devices_processed.map (fun e => e.2.records_count)).sum
          = df.rows.length - (df.rows.filter (fun r =>
              !((stats.devices_processed.map Prod.fst).contains (rowGet r dc)
                && !(rowGet r dc == Value.null)))).length)
      ∧ (∀ l, sd = some l → l ≠ [] →
          (stats.devices_processed.map (fun e => e.2.records_count)).sum
            = df.rows.length - (df.rows.filter (fun r =>
                !(l.contains (rowGet r dc)
                  && !(rowGet r dc == Value.null)))).length)
      ∧ (sd = none →
          (stats.devices_processed.map (fun e => e.2.records_count)).sum
            = df.rows.length
              - (df.rows.filter (fun r => rowGet r dc == Value.null)).length) := by
  have hs : ((filter_data_by_device df od dc fmt sd).ret).isSome = true := by
    rw [h]; rfl
  obtain ⟨hc, ext, heq⟩ := filter_success df od dc fmt sd hs
  rw [heq, goodOutcome] at h
  dsimp only at h
  have hrec := Option.some.inj h
  subst hrec
  dsimp only
  set devs := selectedDevices df dc sd with hdevs
  have hkeys : ((devs.map (fun d =>
        (d, ({ records_count := (deviceRows df dc d).length
               output_file := devicePath od d ext } : DeviceStat)))).map Prod.fst)
      = devs := by
    rw [List.map_map]
    exact List.map_id devs
  have hsum : ((devs.map (fun d =>
        (d, ({ records_count := (deviceRows df dc d).length
               output_file := devicePath od d ext } : DeviceStat)))).map
          (fun e => e.2.records_count))
      = devs.map (fun d => (deviceRows df dc d).length) := by
    rw [List.map_map]
    rfl
  have hnd : devs.Nodup := by
    rw [hdevs]
    exact nodup_selectedDevices df dc sd
  have hsplit := length_filter_split
    (fun r => devs.contains (rowGet r dc) && !(rowGet r dc == Value.null)) df.rows
  have hc1 : ((devs.map (fun d =>
        (d, ({ records_count := (deviceRows df dc d).length
               output_file := devicePath od d ext } : DeviceStat)))).map
          (fun e => e.2.records_count)).sum
      = (df.rows.filter (fun r => devs.contains (rowGet r dc)
          && !(rowGet r dc == Value.null))).length := by
    rw [hsum]
    exact sum_group_lengths df dc devs hnd
  refine ⟨?_, ?_, ?_, ?_⟩
  · rw [hkeys, hc1]
  · rw [hkeys, hc1]
    omega
  · intro l hsd hl
    subst hsd
    have hcl : df.rows.filter (fun r => !(devs.contains (rowGet r dc)
          && !(rowGet r dc == Value.null)))
        = df.rows.filter (fun r => !(l.contains (rowGet r dc)
          && !(rowGet r dc == Value.null))) := by
      apply List.filter_congr
      intro r hr
      rw [hdevs, contains_selectedDevices df dc (some l) r hr, allowedDevice]
      rw [if_pos hl]
    rw [hc1, ← hcl]
    omega
  · intro hsd
    subst hsd
    have h4a : df.rows.filter (fun r => devs.contains (rowGet r dc)
          && !(rowGet r dc == Value.null))
        = df.rows.filter (fun r => !(rowGet r dc == Value.null)) := by
      apply List.filter_congr
      intro r hr
      rw [hdevs, contains_selectedDevices df dc none r hr]
      rfl
    have hsplit2 := length_filter_split
      (fun r => !(rowGet r dc == Value.null)) df.rows
    have h4b : df.rows.filter (fun r => !(!(rowGet r dc == Value.null)))
        = df.rows.filter (fun r => rowGet r dc == Value.null) := by
      apply List.filter_congr
      intro r hr
      exact Bool.not_not _
    rw [h4b] at hsplit2
    rw [hc1, h4a]
    omega

/-- Witness for the C2 amended theorem at a concrete input: on `exTableAB`
restricted to device "A" the returned stats is `exStatsAB` and the
records-count sum (2) equals the number of processed rows with a non-null
device value. -/
theorem claim_C2_amended_witness :
    (filter_data_by_device exTableAB "out" "device" "csv"
        (some [Value.str "A"])).ret = some exStatsAB
      ∧ (exStatsAB.devices_processed.map (fun e => e.2.records_count)).sum
          = (exTableAB.rows.filter (fun r =>
              (exStatsAB.devices_processed.map Prod.fst).contains
                  (rowGet r "device")
                && !(rowGet r "device" == Value.null))).length :=
  ⟨by decide,
    (claim_C2_amended exTableAB "out" "device" "csv" (some [Value.str "A"])
      exStatsAB (by decide)).1⟩

/-- Claim C9: for every successful call with a provided non-empty
`specific_devices`, the `total_records` field is the unfiltered row count of
the input table (`len(df)` at `src/tachfile.py:61` is taken before any
allow-list restriction); on `exTableAB` with allow-list `["A"]` it strictly
exceeds the records-count sum, since device "B" rows are excluded. -/
theorem claim_C9 (df : Table) (od dc fmt : String) (l : List Value)
    (stats : Stats) (hl : l ≠ [])
    (h : (filter_data_by_device df od dc fmt (some l)).ret = some stats) :
    stats.total_records = df.rows.length
      ∧ ((filter_data_by_device exTableAB "out" "device" "csv"
            (some [Value.str "A"])).ret = some exStatsAB
        ∧ (exStatsAB.devices_processed.map (fun e => e.2.records_count)).sum
            < exStatsAB.total_records) := by
  have hs : ((filter_data_by_device df od dc fmt (some l)).ret).isSome = true := by
    rw [h]; rfl
  obtain ⟨hc, ext, heq⟩ := filter_success df od dc fmt (some l) hs
  rw [heq, goodOutcome] at h
  dsimp only at h
  have hrec := Option.some.inj h
  subst hrec
  exact ⟨rfl, by decide, by decide⟩

/-- Witness for C9 at a concrete input: on `exTableAB` with allow-list
`["A"]`, `total_records` equals the unfiltered row count 3. -/
theorem claim_C9_witness :
    ([Value.str "A"] ≠ ([] : List Value))
      ∧ (filter_data_by_device exTableAB "out" "device" "csv"
          (some [Value.str "A"])).ret = some exStatsAB
      ∧ exStatsAB.total_records = exTableAB.rows.length :=
  ⟨by decide, by decide,
    (claim_C9 exTableAB "out" "device" "csv" [Value.str "A"] exStatsAB
      (by decide) (by decide)).1⟩

/-- Claim C4 (amended): when `specific_devices` is provided as a non-empty
list and its intersection with the discovered device keys is empty, the
call reports no failure (no exception is raised or caught; the directory has
already been created) and returns the empty stats record; otherwise
processing is restricted to exactly that intersection, in discovery order.
An empty `specific_devices` list is treated as not provided
(`src/tachfile.py:50` tests truthiness), so it imposes no restriction. -/
theorem claim_C4_amended (df : Table) (od dc fmt : String) (l : List Value)
    (hc : dc ∈ df.columns) (hl : l ≠ []) :
    ((uniqueList (df.colValues dc)).filter (fun d => l.contains d) = [] →
        filter_data_by_device df od dc fmt (some l) =
          { ret := none, written := [], dirCreated := true, errorCaught := false })
      ∧ (∀ stats, (filter_data_by_device df od dc fmt (some l)).ret = some stats →
          stats.devices_processed.map Prod.fst
            = (uniqueList (df.colValues dc)).filter (fun d => l.contains d)) := by
  constructor
  · intro hinter
    rw [filter_data_by_device.eq_def, if_pos hc]
    dsimp only
    rw [if_pos hl, if_pos hinter]
  · intro stats h
    have hs : ((filter_data_by_device df od dc fmt (some l)).ret).isSome = true := by
      rw [h]; rfl
    obtain ⟨-, ext, heq⟩ := filter_success df od dc fmt (some l) hs
    rw [heq, goodOutcome] at h
    dsimp only at h
    have hrec := Option.some.inj h
    subst hrec
    dsimp only
    have hsel : selectedDevices df dc (some l)
        = (uniqueList (df.colValues dc)).filter (fun d => l.contains d) := by
      rw [selectedDevices, if_pos hl]
    rw [hsel, List.map_map]
    exact List.map_id _

/-- Witness for the C4 amended theorem at a concrete input: allow-list
`["Z"]` shares no key with `exTableA`, and the call returns the empty stats
record with no error caught. -/
theorem claim_C4_amended_witness :
    ("device" ∈ exTableA.columns) ∧ ([Value.str "Z"] ≠ ([] : List Value))
      ∧ filter_data_by_device exTableA "out" "device" "csv"
          (some [Value.str "Z"]) =
          { ret := none, written := [], dirCreated := true, errorCaught := false } :=
  ⟨by decide, by decide,
    (claim_C4_amended exTableA "out" "device" "csv" [Value.str "Z"]
      (by decide) (by decide)).1 (by decide)⟩

/-- Claim C5 (amended): with the device column present,
`filter_data_by_device` accepts `csv`, `json`, `excel` case-insensitively
(no error is raised or caught); for any other `file_format` value the
per-device loop raises `UnsupportedFormatError` on its first iteration,
which is caught internally so that the empty mapping is returned and no
exception escapes — provided at least one device key was selected.  When no
key is selected, the format check never runs (claim C10). -/
theorem claim_C5_amended (df : Table) (od dc fmt : String)
    (sd : Option (List Value)) (hc : dc ∈ df.columns) :
    ((lowerStr fmt = "csv" ∨ lowerStr fmt = "json" ∨ lowerStr fmt = "excel") →
        (filter_data_by_device df od dc fmt sd).errorCaught = false)
      ∧ (¬(lowerStr fmt = "csv" ∨ lowerStr fmt = "json" ∨ lowerStr fmt = "excel") →
          selectedDevices df dc sd ≠ [] →
          filter_data_by_device df od dc fmt sd =
            { ret := none, written := [], dirCreated := true, errorCaught := true }) := by
  constructor
  · intro hgood
    have hfe : ∃ e, formatExt fmt = some e := by
      rcases hgood with h1 | h1 | h1
      · exact ⟨".csv", by rw [formatExt, if_pos h1]⟩
      · have h0 : lowerStr fmt ≠ "csv" := by rw [h1]; decide
        exact ⟨".json", by rw [formatExt, if_neg h0, if_pos h1]⟩
      · have h0 : lowerStr fmt ≠ "csv" := by rw [h1]; decide
        have h0b : lowerStr fmt ≠ "json" := by rw [h1]; decide
        exact ⟨".xlsx", by rw [formatExt, if_neg h0, if_neg h0b, if_pos h1]⟩
    obtain ⟨e, hfe⟩ := hfe
    rcases filter_eq_cases df od dc fmt sd hc with ⟨heq, -⟩ | heq
    · rw [heq]
    · rw [heq, runLoop, hfe]
      rfl
  · intro hbad hdev
    push_neg at hbad
    have hfe : formatExt fmt = none := by
      rw [formatExt, if_neg hbad.1, if_neg hbad.2.1, if_neg hbad.2.2]
    rcases filter_eq_cases df od dc fmt sd hc with ⟨-, l, hsd, hl, hselnil⟩ | heq
    · exact absurd hselnil hdev
    · rw [heq, runLoop, hfe]
      dsimp only
      rw [if_neg hdev]

/-- Witness for the C5 amended theorem at a concrete input: on `exTableA`
(one selected device) with format "xml" the loop raises, the error is
caught, and the empty mapping comes back with no file written. -/
theorem claim_C5_amended_witness :
    ("device" ∈ exTableA.columns)
      ∧ filter_data_by_device exTableA "out" "device" "xml" none =
          { ret := none, written := [], dirCreated := true, errorCaught := true } :=
  ⟨by decide,
    (claim_C5_amended exTableA "out" "device" "xml" none (by decide)).2
      (by decide) (by decide)⟩

/-- The device key stored in a summary row. -/
theorem summarize_device (df : Table) (dc : String) (d : Value) :
    (summarize df dc d).device = d := rfl

/-- The `Online_Count` field of a summary row, as the source computes it. -/
theorem summarize_Online_Count (df : Table) (dc : String) (d : Value) :
    (summarize df dc d).Online_Count
      = (if "online" ∈ df.columns then
          listSumV ((deviceRows df dc d).map (fun r => rowGet r "online"))
        else Value.str "N/A") := rfl

/-- Claim C7 (amended): `Online_Count` is the per-group sum of the `online`
column when that column is present (for all-boolean values this equals the
count of truthy values); when the `online` column is absent the aggregation
references it unconditionally, so `get_device_summary` fails and returns the
empty table — the "N/A" branch of the lambda at `src/tachfile.py:133` is
unreachable and no "N/A" marker is ever produced. -/
theorem claim_C7_amended (df : Table) (dc : String) :
    (∀ row ∈ get_device_summary df dc,
        row.Online_Count
            = listSumV ((deviceRows df dc row.device).map (fun r => rowGet r "online"))
          ∧ ((∀ v ∈ (deviceRows df dc row.device).map (fun r => rowGet r "online"),
                ∃ b, v = Value.bool b) →
              row.Online_Count
                = Value.int (((deviceRows df dc row.device).map
                    (fun r => rowGet r "online")).countP truthyValue)))
      ∧ ("online" ∉ df.columns → get_device_summary df dc = []) := by
  constructor
  · intro row hrow
    rw [get_device_summary] at hrow
    split_ifs at hrow with hcond
    · obtain ⟨d, hd, rfl⟩ := List.mem_map.mp hrow
      have honline : "online" ∈ df.columns := hcond.2.2.2.1
      rw [summarize_device, summarize_Online_Count, if_pos honline]
      exact ⟨rfl, fun hb => listSumV_bool _ hb⟩
    · exact absurd hrow (List.not_mem_nil row)
  · intro honline
    rw [get_device_summary, if_neg (fun hcond => honline hcond.2.2.2.1)]

/-- Witness for the C7 amended theorem at a concrete input: the summary row
of `exTableOnlineBool` carries `Online_Count = 1`, the sum (and truthy
count) of its boolean `online` values. -/
theorem claim_C7_amended_witness :
    exSummaryRowA ∈ get_device_summary exTableOnlineBool "device"
      ∧ exSummaryRowA.Online_Count
          = listSumV ((deviceRows exTableOnlineBool "device"
              exSummaryRowA.device).map (fun r => rowGet r "online")) :=
  ⟨by decide,
    ((claim_C7_amended exTableOnlineBool "device").1 exSummaryRowA (by decide)).1⟩
